import Mathlib

/-!
Verification development for the Windows synchronization core:
the emulated reader/writer lock (`sys/windows/rwlock.rs`) built over a
reentrant critical section, and the dynamic symbol-resolution layer
(`sys/windows/compat.rs`).

The emulated control block (`ReentrantRWLock`) is modelled as a record of
its two plain fields (`reader_count`, `write_held`) together with the
recursion depth of the inner reentrant mutex (how many times the current
thread has entered the critical section minus how many times it has left
it; `EnterCriticalSection` is reentrant, so in a single-thread execution
model every lock acquisition succeeds) and an initialization flag for the
inner critical section. Each operation is translated line by line from the
source and additionally records the sequence of gate actions
(lock/unlock calls on the inner mutex) it performs, in source order.
-/

namespace WinSync

/-- State of an emulated control block (`ReentrantRWLock` in
`sys/windows/rwlock.rs`): the `reader_count` and `write_held` fields, the
recursion depth of the inner reentrant mutex (an `Int`, so that an
unbalanced `LeaveCriticalSection` is visible as a negative depth), and
whether the inner critical section is currently initialized. -/
structure RRW where
  readers : Nat
  writeHeld : Bool
  depth : Int
  innerInit : Bool
deriving DecidableEq, Repr

/-- A call on the inner reentrant mutex: `self.inner.lock()` or
`self.inner.unlock()`. -/
inductive GateEvent where
  | lock
  | unlock
deriving DecidableEq, Repr

/-- Result of an emulated-lock operation: normal return, or a `panic!`
carrying the diagnostic message and the block state at the moment of the
abort. -/
inductive Outcome where
  | ok (s : RRW)
  | aborted (msg : String) (s : RRW)
deriving DecidableEq, Repr

namespace ReentrantRWLock

/-- `self.inner.lock()`: enter the reentrant critical section (always
succeeds for the executing thread). -/
def lockGate (s : RRW) : RRW := { s with depth := s.depth + 1 }

/-- `self.inner.unlock()`: leave the critical section. -/
def unlockGate (s : RRW) : RRW := { s with depth := s.depth - 1 }

/-- `ReentrantRWLock::uninitialized()`. -/
def uninitialized : RRW :=
  { readers := 0, writeHeld := false, depth := 0, innerInit := false }

/-- `ReentrantRWLock::init`: `inner.init()`, then lock, zero both fields,
unlock. -/
def init (s : RRW) : RRW × List GateEvent :=
  let s1 := lockGate { s with innerInit := true }
  let s2 := { s1 with readers := 0, writeHeld := false }
  (unlockGate s2, [.lock, .unlock])

/-- A freshly initialized control block, as produced in
`RWLock::rerwlock` by `ReentrantRWLock::uninitialized()` followed by
`init()`. -/
def initialized : RRW := (init uninitialized).1

/-- `ReentrantRWLock::read`: lock the gate; if `write_held`, unlock and
panic; otherwise increment `reader_count` (the gate stays held). -/
def read (s : RRW) : Outcome × List GateEvent :=
  let s1 := lockGate s
  if s1.writeHeld then
    (.aborted "tried to acquire read lock after acquiring write lock" (unlockGate s1),
      [.lock, .unlock])
  else
    (.ok { s1 with readers := s1.readers + 1 }, [.lock])

/-- `ReentrantRWLock::try_read`. The `acq` flag is the outcome of
`inner.try_lock()` (it can be `false` only when another thread holds the
critical section; on the executing thread's own state the try always
succeeds, which the single-thread runs below reflect by passing `true`). -/
def tryRead (acq : Bool) (s : RRW) : (RRW × Bool) × List GateEvent :=
  if !acq then ((s, false), [])
  else
    let s1 := lockGate s
    if s1.writeHeld then ((unlockGate s1, false), [.lock, .unlock])
    else (({ s1 with readers := s1.readers + 1 }, true), [.lock])

/-- `ReentrantRWLock::write`: lock the gate; if `write_held` is already
set, unlock and panic; otherwise set `write_held` (the gate stays held).
Note the source checks only `write_held`, never `reader_count`. -/
def write (s : RRW) : Outcome × List GateEvent :=
  let s1 := lockGate s
  if s1.writeHeld then
    (.aborted "tried to acquire write lock on already acquired write lock" (unlockGate s1),
      [.lock, .unlock])
  else
    (.ok { s1 with writeHeld := true }, [.lock])

/-- `ReentrantRWLock::try_write`: try the gate; on failure return false;
if `write_held` or `reader_count > 0`, unlock and return false; otherwise
set `write_held`, keep the gate held, return true. -/
def tryWrite (acq : Bool) (s : RRW) : (RRW × Bool) × List GateEvent :=
  if !acq then ((s, false), [])
  else
    let s1 := lockGate s
    if s1.writeHeld || decide (0 < s1.readers) then
      ((unlockGate s1, false), [.lock, .unlock])
    else
      (({ s1 with writeHeld := true }, true), [.lock])

/-- `ReentrantRWLock::read_unlock`: inspect `reader_count` directly (no
gate acquisition); if zero, unlock and panic; otherwise decrement and
unlock. -/
def readUnlock (s : RRW) : Outcome × List GateEvent :=
  if s.readers = 0 then
    (.aborted "tried to unlock reader lock with no readers" (unlockGate s), [.unlock])
  else
    (.ok (unlockGate { s with readers := s.readers - 1 }), [.unlock])

/-- `ReentrantRWLock::write_unlock`: inspect `write_held` directly (no
gate acquisition); if clear, unlock and panic; otherwise clear it and
unlock. -/
def writeUnlock (s : RRW) : Outcome × List GateEvent :=
  if !s.writeHeld then
    (.aborted "tried to unlock write lock with no writer" (unlockGate s), [.unlock])
  else
    (.ok (unlockGate { s with writeHeld := false }), [.unlock])

/-- `ReentrantRWLock::destroy`: lock, zero both fields, unlock, then
destroy the inner critical section. -/
def destroy (s : RRW) : RRW × List GateEvent :=
  let s1 := lockGate s
  let s2 := { s1 with readers := 0, writeHeld := false }
  let s3 := unlockGate s2
  ({ s3 with innerInit := false }, [.lock, .unlock])

end ReentrantRWLock

/-- The operations a caller can issue against an emulated control block
(`try_lock` on the executing thread's own reentrant mutex always succeeds,
so the try-operations take the acquired branch in these single-thread
runs). -/
inductive Op where
  | read
  | tryRead
  | write
  | tryWrite
  | readUnlock
  | writeUnlock
deriving DecidableEq, Repr

/-- One operation on the control block; `none` when the operation
panicked (the process aborts, so no further state is reachable). -/
def stepOp (op : Op) (s : RRW) : Option RRW :=
  match op with
  | .read =>
    match (ReentrantRWLock.read s).1 with
    | .ok s1 => some s1
    | .aborted _ _ => none
  | .tryRead => some (ReentrantRWLock.tryRead true s).1.1
  | .write =>
    match (ReentrantRWLock.write s).1 with
    | .ok s1 => some s1
    | .aborted _ _ => none
  | .tryWrite => some (ReentrantRWLock.tryWrite true s).1.1
  | .readUnlock =>
    match (ReentrantRWLock.readUnlock s).1 with
    | .ok s1 => some s1
    | .aborted _ _ => none
  | .writeUnlock =>
    match (ReentrantRWLock.writeUnlock s).1 with
    | .ok s1 => some s1
    | .aborted _ _ => none

/-- Run a sequence of operations from a given block state. -/
def runOps (ops : List Op) (s : RRW) : Option RRW :=
  match ops with
  | [] => some s
  | op :: rest =>
    match stepOp op s with
    | none => none
    | some s1 => runOps rest s1

/-- States reachable from a freshly initialized control block under the
restriction that the blocking `write` operation is only ever issued while
the reader count is zero (i.e. no same-thread read-to-write upgrade, which
the reentrant gate would let through). -/
inductive ReachNoUpgrade : RRW → Prop where
  | init : ReachNoUpgrade ReentrantRWLock.initialized
  | step (op : Op) (s s1 : RRW) : ReachNoUpgrade s →
      (op = .write → s.readers = 0) → stepOp op s = some s1 → ReachNoUpgrade s1

/-- Outcome of one call to `RWLock::rerwlock` (the lazy installer of the
emulated control block). `cell` is the value the initial `SeqCst` load
observes, `cas` the value the cell holds when the `compare_exchange`
executes (0 exactly when no other thread installed a block in between),
and `fresh` the address of the block this call would heap-allocate. -/
structure RerwlockOut where
  returned : Nat
  cellAfter : Nat
  allocated : Bool
  freshDestroyed : Bool
deriving DecidableEq, Repr

/-- `RWLock::rerwlock`: if the load sees non-zero, return that pointer
(no allocation); otherwise allocate and initialize a fresh block and
`compare_exchange(0, fresh)`: on success return `fresh`, on failure
destroy the fresh block and return the pointer some other thread
installed. -/
def rerwlock (cell cas fresh : Nat) : RerwlockOut :=
  if cell = 0 then
    if cas = 0 then
      { returned := fresh, cellAfter := fresh, allocated := true, freshDestroyed := false }
    else
      { returned := cas, cellAfter := cas, allocated := true, freshDestroyed := true }
  else
    { returned := cell, cellAfter := cell, allocated := false, freshDestroyed := false }

/-- `RWLock::destroy` on the emulated back-end: obtain the control block
through `rerwlock` (installing one if the cell is zero — a freshly
allocated block is initialized before the compare-and-swap, and a losing
copy is destroyed), then run `ReentrantRWLock::destroy` on the block the
call returned. The heap is a map from block addresses to block states;
the result is the cell value afterwards together with the updated heap. -/
def destroyRWLock (cell : Nat) (heap : Nat → RRW) (fresh cas : Nat) :
    Nat × (Nat → RRW) :=
  let r := rerwlock cell cas fresh
  let heap1 : Nat → RRW :=
    if r.allocated then
      fun p => if p = fresh then ReentrantRWLock.initialized else heap p
    else heap
  let heap2 : Nat → RRW :=
    if r.freshDestroyed then
      fun p => if p = fresh then (ReentrantRWLock.destroy (heap1 fresh)).1 else heap1 p
    else heap1
  let heap3 : Nat → RRW :=
    fun p => if p = r.returned then (ReentrantRWLock.destroy (heap2 r.returned)).1 else heap2 p
  (r.cellAfter, heap3)

end WinSync

namespace WinCompat

/-!
Model of `sys/windows/compat.rs`. Module and symbol names are byte
sequences (`List Nat`); the OS is an environment consisting of
`GetModuleHandleW` (wide, NUL-terminated; 0 = no such module) and
`GetProcAddress` (narrow, NUL-terminated; 0 = no such symbol).
-/

/-- `compat::lookup`: append the terminating NUL to the module name, build
a C string from the symbol name — `CString::new(symbol).unwrap()`, which
panics when the symbol contains a NUL byte (outer `none`) — then
`GetProcAddress(GetModuleHandleW(module), symbol)`, mapping address 0 to
`none`. -/
def lookup (getModule : List Nat → Nat) (getProc : Nat → List Nat → Nat)
    (module symbol : List Nat) : Option (Option Nat) :=
  if 0 ∈ symbol then none
  else
    let handle := getModule (module ++ [0])
    let addr := getProc handle (symbol ++ [0])
    if addr = 0 then some none else some (some addr)

/-- `compat::store_func` with the lookup already performed: publish
`lookup.unwrap_or(fallback)` into the slot and return it
(first component: new slot contents; second: returned value). -/
def store_func (lookupRes : Option Nat) (fallback : Nat) : Nat × Nat :=
  let value := lookupRes.getD fallback
  (value, value)

/-- One invocation of a `compat_fn!` wrapper, restricted to its cache-slot
dynamics: load the slot; on 0 run `store_func` (third component `true`
records that the resolve step ran), otherwise use the loaded value
unchanged. Returns (slot contents afterwards, address invoked, whether
the resolve step ran). -/
def compatCall (lookupRes : Option Nat) (fallback : Nat) (slot : Nat) :
    Nat × Nat × Bool :=
  if slot = 0 then
    let v := store_func lookupRes fallback
    (v.1, v.2, true)
  else
    (slot, slot, false)

/-- The cache slot after `n` successive wrapper invocations. -/
def compatIter (lookupRes : Option Nat) (fallback : Nat) : Nat → Nat → Nat
  | 0, slot => slot
  | n + 1, slot => compatIter lookupRes fallback n (compatCall lookupRes fallback slot).1

/-- The grouped loader's resolution pass: look up every symbol in order,
stopping at the first absent one (`none`); otherwise return all resolved
addresses in order. -/
def resolveAll (lookupSym : Nat → Option Nat) : List Nat → Option (List Nat)
  | [] => some []
  | s :: rest =>
    match lookupSym s with
    | none => none
    | some a =>
      match resolveAll lookupSym rest with
      | none => none
      | some rs => some (a :: rs)

/-- `compat_group!`'s `$gload`: if any symbol of the group is absent,
store every member's slot with its fallback address and return; otherwise
store every member's slot with its resolved address. The result is the
final slot contents, in group order. -/
def gload (lookupSym : Nat → Option Nat) (fb : Nat → Nat) (syms : List Nat) :
    List Nat :=
  match resolveAll lookupSym syms with
  | some addrs => addrs
  | none => syms.map fb

end WinCompat

namespace WinSync

/-- The invariant claimed of the emulated lock: the reader count and the
write-held flag are never simultaneously positive/set. -/
def rwInvariant (s : RRW) : Prop := s.readers = 0 ∨ s.writeHeld = false

/-- One guarded step preserves the invariant: every operation keeps
`rwInvariant` provided the blocking `write` is only issued while the
reader count is zero. -/
theorem rwInvariant_step (op : Op) (s s1 : RRW) (hinv : rwInvariant s)
    (hguard : op = Op.write → s.readers = 0) (hstep : stepOp op s = some s1) :
    rwInvariant s1 := by
  obtain ⟨r, w, d, i⟩ := s
  cases op with
  | read =>
    cases w with
    | true =>
      simp [stepOp, ReentrantRWLock.read, ReentrantRWLock.lockGate,
        ReentrantRWLock.unlockGate] at hstep
    | false =>
      simp [stepOp, ReentrantRWLock.read, ReentrantRWLock.lockGate] at hstep
      rw [← hstep]
      exact Or.inr rfl
  | tryRead =>
    cases w with
    | true =>
      simp [stepOp, ReentrantRWLock.tryRead, ReentrantRWLock.lockGate,
        ReentrantRWLock.unlockGate] at hstep
      rw [← hstep]
      rcases hinv with h0 | hf
      · exact Or.inl h0
      · exact absurd hf (by simp)
    | false =>
      simp [stepOp, ReentrantRWLock.tryRead, ReentrantRWLock.lockGate] at hstep
      rw [← hstep]
      exact Or.inr rfl
  | write =>
    cases w with
    | true =>
      simp [stepOp, ReentrantRWLock.write, ReentrantRWLock.lockGate,
        ReentrantRWLock.unlockGate] at hstep
    | false =>
      simp [stepOp, ReentrantRWLock.write, ReentrantRWLock.lockGate] at hstep
      rw [← hstep]
      exact Or.inl (hguard rfl)
  | tryWrite =>
    cases w with
    | true =>
      simp [stepOp, ReentrantRWLock.tryWrite, ReentrantRWLock.lockGate,
        ReentrantRWLock.unlockGate] at hstep
      rw [← hstep]
      rcases hinv with h0 | hf
      · exact Or.inl h0
      · exact absurd hf (by simp)
    | false =>
      cases r with
      | zero =>
        simp [stepOp, ReentrantRWLock.tryWrite, ReentrantRWLock.lockGate] at hstep
        rw [← hstep]
        exact Or.inl rfl
      | succ r1 =>
        simp [stepOp, ReentrantRWLock.tryWrite, ReentrantRWLock.lockGate,
          ReentrantRWLock.unlockGate] at hstep
        rw [← hstep]
        exact Or.inr rfl
  | readUnlock =>
    cases r with
    | zero =>
      simp [stepOp, ReentrantRWLock.readUnlock, ReentrantRWLock.unlockGate] at hstep
    | succ r1 =>
      simp [stepOp, ReentrantRWLock.readUnlock, ReentrantRWLock.unlockGate] at hstep
      rw [← hstep]
      rcases hinv with h0 | hf
      · exact absurd h0 (by simp)
      · exact Or.inr hf
  | writeUnlock =>
    cases w with
    | false =>
      simp [stepOp, ReentrantRWLock.writeUnlock, ReentrantRWLock.unlockGate] at hstep
    | true =>
      simp [stepOp, ReentrantRWLock.writeUnlock, ReentrantRWLock.unlockGate] at hstep
      rw [← hstep]
      exact Or.inr rfl

/-- Claim C1, counterexample: from a freshly initialized control block,
the two-operation sequence `read; write` (issued by one thread — the
inner critical section is reentrant, so the `write` goes through) runs to
completion without panicking and reaches a state with reader count 1 and
the write-held flag set, violating the claimed invariant. -/
theorem c1_counterexample :
    runOps [Op.read, Op.write] ReentrantRWLock.initialized =
      some { readers := 1, writeHeld := true, depth := 2, innerInit := true } ∧
    ¬ rwInvariant { readers := 1, writeHeld := true, depth := 2, innerInit := true } := by
  constructor
  · rfl
  · simp [rwInvariant]

/-- Claim C1, amended: the invariant (reader count and write-held flag
never simultaneously positive/set) does hold of every state reachable
from a freshly initialized control block, provided the blocking `write`
operation is only ever issued while the reader count is zero (the
source's `write` checks `write_held` but not `reader_count`, so a
same-thread read-to-write upgrade is the one transition that breaks the
invariant; `try_write` refuses it). -/
theorem c1_no_upgrade_invariant (s : RRW) (h : ReachNoUpgrade s) : rwInvariant s := by
  induction h with
  | init => exact Or.inl rfl
  | step op s0 s1 _ hguard hstep ih => exact rwInvariant_step op s0 s1 ih hguard hstep

/-- Witness for C1's amended theorem: the state after a single `read`
from a freshly initialized block is reachable without upgrades and
satisfies the invariant. -/
theorem c1_no_upgrade_invariant_witness :
    rwInvariant { readers := 1, writeHeld := false, depth := 1, innerInit := true } :=
  c1_no_upgrade_invariant _
    (ReachNoUpgrade.step Op.read ReentrantRWLock.initialized
      { readers := 1, writeHeld := false, depth := 1, innerInit := true }
      ReachNoUpgrade.init (fun hop => absurd hop (by decide)) rfl)

/-- Claim C2, counterexample: a completed `read` on a fresh block leaves
the gate held — the recursion depth of the inner mutex rises from 0 to 1
and the operation's gate trace contains no unlock at all, contradicting
"releases the inner reentrant mutex before returning". -/
theorem c2_counterexample :
    ReentrantRWLock.read ReentrantRWLock.initialized =
      (Outcome.ok { readers := 1, writeHeld := false, depth := 1, innerInit := true },
        [GateEvent.lock]) ∧
    ({ readers := 1, writeHeld := false, depth := 1, innerInit := true } : RRW).depth ≠
      ReentrantRWLock.initialized.depth ∧
    GateEvent.unlock ∉ [GateEvent.lock] := by
  refine ⟨rfl, by decide, by decide⟩

/-- Claim C2, amended: a completed `read` (and a `try_read` that returns
true) increments the reader count but returns with the inner reentrant
mutex still held — the gate trace is a single lock with no matching
unlock, and the recursion depth is one higher than before; the gate is
released only later, by `read_unlock`. -/
theorem c2_read_keeps_gate (s : RRW) (h : s.writeHeld = false) :
    ReentrantRWLock.read s =
      (Outcome.ok { s with readers := s.readers + 1, depth := s.depth + 1 },
        [GateEvent.lock]) ∧
    ReentrantRWLock.tryRead true s =
      (({ s with readers := s.readers + 1, depth := s.depth + 1 }, true),
        [GateEvent.lock]) := by
  obtain ⟨r, w, d, i⟩ := s
  subst h
  exact ⟨rfl, rfl⟩

/-- Witness for C2's amended theorem at a freshly initialized block. -/
theorem c2_read_keeps_gate_witness :
    ReentrantRWLock.read { readers := 0, writeHeld := false, depth := 0, innerInit := true } =
      (Outcome.ok { readers := 1, writeHeld := false, depth := 1, innerInit := true },
        [GateEvent.lock]) ∧
    ReentrantRWLock.tryRead true
        { readers := 0, writeHeld := false, depth := 0, innerInit := true } =
      (({ readers := 1, writeHeld := false, depth := 1, innerInit := true }, true),
        [GateEvent.lock]) :=
  c2_read_keeps_gate { readers := 0, writeHeld := false, depth := 0, innerInit := true } rfl

/-- Claim C3, counterexample: `read_unlock` performs no gate acquisition
at all — on a block with one reader its complete gate trace is a single
unlock, so it does not acquire the inner mutex before inspecting the
reader count. -/
theorem c3_counterexample :
    ReentrantRWLock.readUnlock { readers := 1, writeHeld := false, depth := 1, innerInit := true } =
      (Outcome.ok { readers := 0, writeHeld := false, depth := 0, innerInit := true },
        [GateEvent.unlock]) ∧
    GateEvent.lock ∉ [GateEvent.unlock] ∧
    [GateEvent.unlock].head? ≠ some GateEvent.lock := by
  refine ⟨rfl, by decide, by decide⟩

/-- Claim C3, amended: `read_unlock` does not acquire the inner mutex; it
inspects the reader count directly (the caller still holds the gate from
`read`). If the count is zero it releases the gate and fails hard with
"tried to unlock reader lock with no readers"; otherwise it decrements
the count and releases the gate. Either way its gate trace is exactly one
unlock. -/
theorem c3_read_unlock (s : RRW) (h : 0 < s.readers) :
    ReentrantRWLock.readUnlock s =
      (Outcome.ok { s with readers := s.readers - 1, depth := s.depth - 1 },
        [GateEvent.unlock]) ∧
    ReentrantRWLock.readUnlock { s with readers := 0 } =
      (Outcome.aborted "tried to unlock reader lock with no readers"
        { s with readers := 0, depth := s.depth - 1 }, [GateEvent.unlock]) := by
  obtain ⟨r, w, d, i⟩ := s
  cases r with
  | zero => exact absurd h (Nat.lt_irrefl 0)
  | succ r1 => exact ⟨rfl, rfl⟩

/-- Witness for C3's amended theorem on a block with one reader. -/
theorem c3_read_unlock_witness :
    ReentrantRWLock.readUnlock { readers := 1, writeHeld := false, depth := 1, innerInit := true } =
      (Outcome.ok { readers := 0, writeHeld := false, depth := 0, innerInit := true },
        [GateEvent.unlock]) ∧
    ReentrantRWLock.readUnlock { readers := 0, writeHeld := false, depth := 1, innerInit := true } =
      (Outcome.aborted "tried to unlock reader lock with no readers"
        { readers := 0, writeHeld := false, depth := 0, innerInit := true },
        [GateEvent.unlock]) :=
  c3_read_unlock { readers := 1, writeHeld := false, depth := 1, innerInit := true }
    (by decide)

/-- Claim C4 (confirmed): `RWLock::rerwlock` returns the stored pointer
without allocating when the state cell is non-zero; when the cell is
zero it allocates a fresh block and installs it by compare-and-swap,
returning the fresh block on success and, when the compare-and-swap
fails, destroying the fresh block and returning the pointer that is
already installed. A fresh allocation that is not destroyed is exactly
the pointer installed in the cell, so at most one block is ever retained
per lock. -/
theorem c4_rerwlock (cell cas fresh c k f : Nat) (hc : cell ≠ 0) (hk : cas ≠ 0)
    (ha : (rerwlock c k f).allocated = true)
    (hd : (rerwlock c k f).freshDestroyed = false) :
    rerwlock cell cas fresh =
      { returned := cell, cellAfter := cell, allocated := false, freshDestroyed := false } ∧
    rerwlock 0 0 fresh =
      { returned := fresh, cellAfter := fresh, allocated := true, freshDestroyed := false } ∧
    rerwlock 0 cas fresh =
      { returned := cas, cellAfter := cas, allocated := true, freshDestroyed := true } ∧
    (rerwlock c k f).returned = f ∧
    (rerwlock c k f).cellAfter = f := by
  refine ⟨by simp [rerwlock, hc], by simp [rerwlock], by simp [rerwlock, hk], ?_, ?_⟩
  · by_cases hc0 : c = 0
    · by_cases hk0 : k = 0
      · simp [rerwlock, hc0, hk0]
      · simp [rerwlock, hc0, hk0] at hd
    · simp [rerwlock, hc0] at ha
  · by_cases hc0 : c = 0
    · by_cases hk0 : k = 0
      · simp [rerwlock, hc0, hk0]
      · simp [rerwlock, hc0, hk0] at hd
    · simp [rerwlock, hc0] at ha

/-- Witness for C4's theorem: a non-zero cell (5), a failed
compare-and-swap observation (3), and a fresh uncontended install. -/
theorem c4_rerwlock_witness :
    rerwlock 5 3 7 =
      { returned := 5, cellAfter := 5, allocated := false, freshDestroyed := false } ∧
    rerwlock 0 0 7 =
      { returned := 7, cellAfter := 7, allocated := true, freshDestroyed := false } ∧
    rerwlock 0 3 7 =
      { returned := 3, cellAfter := 3, allocated := true, freshDestroyed := true } ∧
    (rerwlock 0 0 9).returned = 9 ∧
    (rerwlock 0 0 9).cellAfter = 9 :=
  c4_rerwlock 5 3 7 0 0 9 (by decide) (by decide) (by decide) (by decide)

/-- Claim C7 (confirmed): emulated `try_write` returns false immediately
when the inner mutex cannot be acquired (state untouched, no gate
activity); with the gate acquired and either the write-held flag set or
readers present it releases the gate and returns false (net state
unchanged); otherwise it sets the write-held flag, keeps the gate held
(depth one higher, trace a single lock) and returns true. In particular
try-write with readers > 0 returns false. -/
theorem c7_try_write (s t : RRW) (hw : s.writeHeld = false) (hr : s.readers = 0)
    (ht : t.writeHeld = true ∨ 0 < t.readers) :
    ReentrantRWLock.tryWrite false s = ((s, false), []) ∧
    ReentrantRWLock.tryWrite false t = ((t, false), []) ∧
    ReentrantRWLock.tryWrite true s =
      (({ s with writeHeld := true, depth := s.depth + 1 }, true), [GateEvent.lock]) ∧
    ReentrantRWLock.tryWrite true t =
      ((t, false), [GateEvent.lock, GateEvent.unlock]) := by
  obtain ⟨r, w, d, i⟩ := s
  obtain ⟨r1, w1, d1, i1⟩ := t
  simp only [RRW.writeHeld, RRW.readers] at hw hr ht
  subst hw hr
  refine ⟨rfl, rfl, rfl, ?_⟩
  have hcond : (w1 || decide (0 < r1)) = true := by
    rcases ht with h1 | h1
    · simp [h1]
    · simp [h1]
  cases w1 with
  | true =>
    simp [ReentrantRWLock.tryWrite, ReentrantRWLock.lockGate, ReentrantRWLock.unlockGate]
  | false =>
    simp only [Bool.false_or] at hcond
    simp [ReentrantRWLock.tryWrite, ReentrantRWLock.lockGate, ReentrantRWLock.unlockGate,
      hcond]

/-- Witness for C7's theorem: a fresh idle block and a block with one
reader. -/
theorem c7_try_write_witness :
    ReentrantRWLock.tryWrite false
        { readers := 0, writeHeld := false, depth := 0, innerInit := true } =
      (({ readers := 0, writeHeld := false, depth := 0, innerInit := true }, false), []) ∧
    ReentrantRWLock.tryWrite false
        { readers := 1, writeHeld := false, depth := 1, innerInit := true } =
      (({ readers := 1, writeHeld := false, depth := 1, innerInit := true }, false), []) ∧
    ReentrantRWLock.tryWrite true
        { readers := 0, writeHeld := false, depth := 0, innerInit := true } =
      (({ readers := 0, writeHeld := true, depth := 1, innerInit := true }, true),
        [GateEvent.lock]) ∧
    ReentrantRWLock.tryWrite true
        { readers := 1, writeHeld := false, depth := 1, innerInit := true } =
      (({ readers := 1, writeHeld := false, depth := 1, innerInit := true }, false),
        [GateEvent.lock, GateEvent.unlock]) :=
  c7_try_write { readers := 0, writeHeld := false, depth := 0, innerInit := true }
    { readers := 1, writeHeld := false, depth := 1, innerInit := true }
    rfl rfl (Or.inr (by decide))

/-- Claim C8 (confirmed): emulated `write_unlock` on a block whose
write-held flag is clear releases the gate (one unlock, depth one lower)
and aborts with exactly "tried to unlock write lock with no writer"; the
reader count and the write-held flag are unchanged at the abort. -/
theorem c8_write_unlock_no_writer (s : RRW) (h : s.writeHeld = false) :
    ReentrantRWLock.writeUnlock s =
      (Outcome.aborted "tried to unlock write lock with no writer"
        { s with depth := s.depth - 1 }, [GateEvent.unlock]) ∧
    ({ s with depth := s.depth - 1 } : RRW).readers = s.readers ∧
    ({ s with depth := s.depth - 1 } : RRW).writeHeld = s.writeHeld := by
  obtain ⟨r, w, d, i⟩ := s
  simp only [RRW.writeHeld] at h
  subst h
  exact ⟨rfl, rfl, rfl⟩

/-- Witness for C8's theorem at a freshly initialized block. -/
theorem c8_write_unlock_no_writer_witness :
    ReentrantRWLock.writeUnlock
        { readers := 0, writeHeld := false, depth := 0, innerInit := true } =
      (Outcome.aborted "tried to unlock write lock with no writer"
        { readers := 0, writeHeld := false, depth := -1, innerInit := true },
        [GateEvent.unlock]) ∧
    ({ readers := 0, writeHeld := false, depth := -1, innerInit := true } : RRW).readers = 0 ∧
    ({ readers := 0, writeHeld := false, depth := -1, innerInit := true } : RRW).writeHeld =
      false :=
  c8_write_unlock_no_writer { readers := 0, writeHeld := false, depth := 0, innerInit := true }
    rfl

/-- Claim C10 (confirmed): on the emulated back-end, an operation on a
lock whose state cell is zero first allocates and installs a control
block (`rerwlock` allocates and the cell becomes the fresh pointer); in
particular destroy of a never-used lock is not a no-op: it installs a
fresh initialized block and then runs `ReentrantRWLock::destroy` on it,
leaving the block's fields reset and its inner reentrant mutex
destroyed. -/
theorem c10_destroy_installs (heap : Nat → RRW) (fresh : Nat) (hf : fresh ≠ 0) :
    (rerwlock 0 0 fresh).allocated = true ∧
    (destroyRWLock 0 heap fresh 0).1 = fresh ∧
    (destroyRWLock 0 heap fresh 0).1 ≠ 0 ∧
    (destroyRWLock 0 heap fresh 0).2 fresh =
      { readers := 0, writeHeld := false, depth := 0, innerInit := false } := by
  refine ⟨by simp [rerwlock], by simp [destroyRWLock, rerwlock], ?_, ?_⟩
  · simpa [destroyRWLock, rerwlock] using hf
  · simp [destroyRWLock, rerwlock]
    rfl

/-- Witness for C10's theorem: an uncontended first-use destroy at fresh
address 7 over an arbitrary heap. -/
theorem c10_destroy_installs_witness :
    (rerwlock 0 0 7).allocated = true ∧
    (destroyRWLock 0 (fun _ => ReentrantRWLock.uninitialized) 7 0).1 = 7 ∧
    (destroyRWLock 0 (fun _ => ReentrantRWLock.uninitialized) 7 0).1 ≠ 0 ∧
    (destroyRWLock 0 (fun _ => ReentrantRWLock.uninitialized) 7 0).2 7 =
      { readers := 0, writeHeld := false, depth := 0, innerInit := false } :=
  c10_destroy_installs (fun _ => ReentrantRWLock.uninitialized) 7 (by decide)

end WinSync

namespace WinCompat

/-- If the grouped loader's resolution pass succeeds, each returned
address is exactly the lookup result of the corresponding symbol, in
order. -/
theorem resolveAll_forall2 (lookupSym : Nat → Option Nat) :
    ∀ syms addrs, resolveAll lookupSym syms = some addrs →
      List.Forall₂ (fun s a => lookupSym s = some a) syms addrs := by
  intro syms
  induction syms with
  | nil =>
    intro addrs h
    simp only [resolveAll, Option.some.injEq] at h
    subst h
    exact List.Forall₂.nil
  | cons s rest ih =>
    intro addrs h
    simp only [resolveAll] at h
    cases hl : lookupSym s with
    | none => rw [hl] at h; exact absurd h (by simp)
    | some a =>
      rw [hl] at h
      cases hr : resolveAll lookupSym rest with
      | none => rw [hr] at h; exact absurd h (by simp)
      | some rs =>
        rw [hr] at h
        simp only [Option.some.injEq] at h
        subst h
        exact List.Forall₂.cons hl (ih rs hr)

/-- Claim C5 (confirmed): after the group loader has run, either every
member's slot holds its resolved address (pointwise, the lookup result of
that symbol) or every member's slot holds that member's fallback address
— never a mixture, because any absent symbol routes the whole group to
fallbacks. -/
theorem c5_gload_all_or_nothing (lookupSym : Nat → Option Nat) (fb : Nat → Nat)
    (syms : List Nat) :
    List.Forall₂ (fun s a => lookupSym s = some a) syms (gload lookupSym fb syms) ∨
    gload lookupSym fb syms = syms.map fb := by
  cases h : resolveAll lookupSym syms with
  | none =>
    right
    simp [gload, h]
  | some addrs =>
    left
    simpa [gload, h] using resolveAll_forall2 lookupSym syms addrs h

/-- Iterating the wrapper never changes a non-zero slot. -/
theorem compatIter_ne (lookupRes : Option Nat) (fallback : Nat) :
    ∀ n slot, slot ≠ 0 → compatIter lookupRes fallback n slot = slot := by
  intro n
  induction n with
  | zero => intro slot _; rfl
  | succ n ih =>
    intro slot h
    simp only [compatIter, compatCall, if_neg h]
    exact ih slot h

/-- Claim C6 (confirmed): once a symbol's cache slot is non-zero, no
number of further wrapper invocations changes it, and a single invocation
on a non-zero slot only loads it (the resolve step does not run); the
resolve step runs exactly when a zero value is observed, and it always
stores the same resolved-or-fallback address
(`lookup(...).unwrap_or(fallback)`). -/
theorem c6_slot_stable (lookupRes : Option Nat) (fallback slot n : Nat)
    (h : slot ≠ 0) :
    compatIter lookupRes fallback n slot = slot ∧
    compatCall lookupRes fallback slot = (slot, slot, false) ∧
    compatCall lookupRes fallback 0 =
      (lookupRes.getD fallback, lookupRes.getD fallback, true) := by
  refine ⟨compatIter_ne lookupRes fallback n slot h, ?_, rfl⟩
  simp [compatCall, if_neg h]

/-- Witness for C6's theorem: slot 5 is stable across 3 invocations, and
the resolve step at a zero slot stores the looked-up address 4. -/
theorem c6_slot_stable_witness :
    compatIter (some 4) 9 3 5 = 5 ∧
    compatCall (some 4) 9 5 = (5, 5, false) ∧
    compatCall (some 4) 9 0 = ((some 4).getD 9, (some 4).getD 9, true) :=
  c6_slot_stable (some 4) 9 5 3 (by decide)

/-- Claim C9, counterexample: `lookup` builds the symbol's C string with
`CString::new(symbol).unwrap()`, which panics when the symbol name
contains a NUL byte (modelled by the outer `none`); so `lookup` does not
return an address-or-absent result for every symbol name. -/
theorem c9_counterexample :
    lookup (fun _ => 0) (fun _ _ => 0) [] [0] = none ∧ (0 : Nat) ∈ [(0 : Nat)] := by
  exact ⟨by decide, by decide⟩

/-- Claim C9, amended: for every module name and every symbol name free
of NUL bytes, `lookup` returns an address-or-absent result and never
panics, in any OS environment; a missing module (a null module handle, on
which the OS proc lookup yields null) and a missing symbol both produce
the absent result. -/
theorem c9_lookup_no_nul (getModule getModule2 gm : List Nat → Nat)
    (getProc getProc2 gp : Nat → List Nat → Nat) (module symbol : List Nat)
    (hs : (0 : Nat) ∉ symbol)
    (hm : getModule (module ++ [0]) = 0)
    (hnull : ∀ s1, getProc 0 s1 = 0)
    (hp : getProc2 (getModule2 (module ++ [0])) (symbol ++ [0]) = 0) :
    (lookup gm gp module symbol).isSome = true ∧
    lookup getModule getProc module symbol = some none ∧
    lookup getModule2 getProc2 module symbol = some none := by
  refine ⟨?_, ?_, ?_⟩
  · simp only [lookup, if_neg hs]
    by_cases h : gp (gm (module ++ [0])) (symbol ++ [0]) = 0 <;> simp [h]
  · simp [lookup, if_neg hs, hm, hnull]
  · simp [lookup, if_neg hs, hp]

/-- Witness for C9's amended theorem: symbol name [65] has no NUL byte;
an environment with no modules and one with a module lacking the symbol
both yield the absent result. -/
theorem c9_lookup_no_nul_witness :
    (lookup (fun _ => 0) (fun _ _ => 0) [] [65]).isSome = true ∧
    lookup (fun _ => 0) (fun _ _ => 0) [] [65] = some none ∧
    lookup (fun _ => 1) (fun _ _ => 0) [] [65] = some none :=
  c9_lookup_no_nul (fun _ => 0) (fun _ => 1) (fun _ => 0) (fun _ _ => 0) (fun _ _ => 0)
    (fun _ _ => 0) [] [65] (by decide) rfl (fun _ => rfl) rfl

end WinCompat
